import Mathlib

/-!
Shallow embedding of the semantic-retrieval core of the bioagent repository.

The embedded code is:
- `src/src/rag/vector_store.py` (`TargetVectorStore`: `add_documents`, `search`,
  `save`, `load`),
- `src/src/rag/target_discovery.py` (`TargetDiscoveryRAG`: `build_knowledge_base`,
  `discover_targets`).

Modelling conventions:
- Embedding vectors are `List ℚ` (floating point replaced by exact rationals);
  the external embedding model (`SentenceTransformer.encode` with
  `normalize_embeddings=True`) is an abstract parameter `encode : String → List ℚ`.
  Batch encoding in chunks of 32 followed by `np.vstack` is extensionally the
  per-text map, so it is modelled as `List.map encode`.
- The FAISS `IndexFlatIP` is modelled by the list of its stored rows; its exact
  inner-product `search` is modelled as a deterministic full sort of the
  `(row_id, score)` pairs, descending by score with ties resolved to the lowest
  row id, truncated to `k`, and padded with `(-1, -FLT_MAX)` entries when the
  index holds fewer than `k` rows (FAISS pads missing neighbours with label `-1`
  and the worst metric value).
- Python exceptions are modelled with `Except String` or an `Option String`
  error component; Python list indexing (which accepts negative indices) is
  modelled by `pyGet`.
- The on-disk bundle is a `Disk` record of three optional artifacts; file writes
  may fail, which is modelled by a write-success oracle `ok : ℕ → Bool`
  (artifact 0 = FAISS index, 1 = documents pickle, 2 = embeddings array).
-/

/-- A literature record as consumed by `TargetVectorStore.add_documents`:
a dict with `title` and `abstract` keys. -/
structure Doc where
  title : String
  abstract : String
deriving DecidableEq, Repr

/-- The text embedded for a document: the title, a space, and the abstract
(the Python f-string over doc.get of title and abstract). -/
def docText (d : Doc) : String := d.title ++ " " ++ d.abstract

/-- Inner product of two vectors (trailing components of the longer vector are
ignored; the code only ever compares vectors of equal dimensionality). -/
def dot : List ℚ → List ℚ → ℚ
  | [], _ => 0
  | _, [] => 0
  | a :: as, b :: bs => a * b + dot as bs

/-- In-memory state of a `TargetVectorStore`: the FAISS index (rows of the
`IndexFlatIP`, `none` when `self.index is None`), the document list and the
embeddings matrix. -/
structure VSState where
  index : Option (List (List ℚ))
  documents : List Doc
  embeddings : List (List ℚ)
deriving DecidableEq, Repr

/-- A freshly constructed `TargetVectorStore`:
`self.index = None`, `self.documents = []`, `self.embeddings = []`. -/
def initState : VSState := ⟨none, [], []⟩

/-- Number of rows held by the FAISS index (`index.ntotal`, 0 when absent). -/
def rowCount (s : VSState) : ℕ := (s.index.getD []).length

/-- `TargetVectorStore.add_documents`: appends the new documents to
`self.documents`, then REPLACES `self.embeddings` with the embeddings of the
new batch only (`self.embeddings = np.vstack(all_embeddings)`) and builds a
fresh `faiss.IndexFlatIP` holding only those embeddings. An empty input makes
`np.vstack([])` raise `ValueError`. -/
def add_documents (encode : String → List ℚ) (s : VSState) (docs : List Doc) :
    Except String VSState :=
  if docs.isEmpty then .error "ValueError"
  else
    let embs := (docs.map docText).map encode
    .ok { index := some embs
          documents := s.documents ++ docs
          embeddings := embs }

/-- Ranking order used to model exact FAISS inner-product search: higher score
first, exact ties resolved to the lower row id. -/
def searchRel (a b : ℕ × ℚ) : Prop := b.2 < a.2 ∨ (a.2 = b.2 ∧ a.1 ≤ b.1)

instance : DecidableRel searchRel := fun a b => by
  unfold searchRel
  exact inferInstance

instance : IsTotal (ℕ × ℚ) searchRel := ⟨by
  intro a b
  rcases lt_trichotomy a.2 b.2 with h | h | h
  · exact Or.inr (Or.inl h)
  · rcases le_total a.1 b.1 with h1 | h1
    · exact Or.inl (Or.inr ⟨h, h1⟩)
    · exact Or.inr (Or.inr ⟨h.symm, h1⟩)
  · exact Or.inl (Or.inl h)⟩

instance : IsTrans (ℕ × ℚ) searchRel := ⟨by
  intro a b c hab hbc
  rcases hab with h1 | ⟨e1, i1⟩ <;> rcases hbc with h2 | ⟨e2, i2⟩
  · exact Or.inl (h2.trans h1)
  · exact Or.inl (by rw [← e2]; exact h1)
  · exact Or.inl (by rw [e1]; exact h2)
  · exact Or.inr ⟨e1.trans e2, i1.trans i2⟩⟩

/-- All `(row_id, inner-product score)` pairs of an index against a query,
fully sorted by `searchRel` (score descending, ties by ascending id). -/
def ranked (rows : List (List ℚ)) (q : List ℚ) : List (ℕ × ℚ) :=
  List.insertionSort searchRel ((rows.map (dot q)).enum)

/-- The score FAISS uses to pad missing neighbours for inner-product metrics:
the most negative single-precision float, `-FLT_MAX`. -/
def negFltMax : ℚ := -340282350000000000000000000000000000000

/-- Model of `faiss.IndexFlatIP.search` for one query: the `k` best
`(label, score)` pairs; when the index holds fewer than `k` rows the result is
padded to length `k` with `(-1, -FLT_MAX)` entries. -/
def faissSearch (rows : List (List ℚ)) (q : List ℚ) (k : ℕ) : List (Int × ℚ) :=
  ((ranked rows q).take k).map (fun p => ((p.1 : Int), p.2))
    ++ List.replicate (k - rows.length) (-1, negFltMax)

/-- Python list indexing `l[i]`: non-negative indices are positional, negative
indices count from the end, anything out of range raises `IndexError`
(modelled as `none`). -/
def pyGet {α : Type} (l : List α) (i : Int) : Option α :=
  if 0 ≤ i then l.get? i.toNat
  else if 0 ≤ (l.length : Int) + i then l.get? ((l.length : Int) + i).toNat
  else none

/-- The result loop of `TargetVectorStore.search`:
`for idx, score in zip(indices[0], scores[0]): if idx < len(self.documents):
results.append((self.documents[idx], score))`. Note the guard only bounds the
index from above, so FAISS padding label `-1` passes it and
`self.documents[idx]` then resolves by Python negative indexing. -/
def pyCollect (docs : List Doc) : List (Int × ℚ) → Except String (List (Doc × ℚ))
  | [] => .ok []
  | (idx, score) :: rest =>
    if idx < (docs.length : Int) then
      match pyGet docs idx with
      | some d => (pyCollect docs rest).map (fun l => (d, score) :: l)
      | none => .error "IndexError"
    else pyCollect docs rest

/-- `TargetVectorStore.search`: returns `[]` when `self.index is None or
len(self.documents) == 0`; otherwise encodes the query, runs the FAISS search
and maps the returned labels through the document list. -/
def search (encode : String → List ℚ) (s : VSState) (query : String) (k : ℕ) :
    Except String (List (Doc × ℚ)) :=
  match s.index with
  | none => .ok []
  | some rows =>
    if s.documents.length = 0 then .ok []
    else pyCollect s.documents (faissSearch rows (encode query) k)

/-- The on-disk bundle directory written by `TargetVectorStore.save`:
`index.faiss`, `documents.pkl`, `embeddings.npy` (each possibly absent). -/
structure Disk where
  indexFile : Option (List (List ℚ))
  documentsFile : Option (List Doc)
  embeddingsFile : Option (List (List ℚ))
deriving DecidableEq, Repr

/-- A directory with none of the three artifacts present. -/
def emptyDisk : Disk := ⟨none, none, none⟩

/-- The tail of `TargetVectorStore.save` after the optional index write:
pickle the documents (write 1), then write the embeddings array if non-empty
(write 2). A failed write raises `IOError` and skips everything after it. -/
def saveDocsStep (s : VSState) (d : Disk) (ok : ℕ → Bool) : Disk × Option String :=
  if ok 1 then
    let d1 : Disk := { d with documentsFile := some s.documents }
    if 0 < s.embeddings.length then
      if ok 2 then ({ d1 with embeddingsFile := some s.embeddings }, none)
      else (d1, some "IOError")
    else (d1, none)
  else (d, some "IOError")

/-- `TargetVectorStore.save`: sequential in-place writes with no temporary path
or atomic rename. The FAISS index is written only `if self.index is not None`
(write 0), then the documents pickle, then the embeddings array only if
non-empty. The `ok` oracle tells which write calls succeed; the first failing
write raises `IOError`, leaving the artifacts already written on disk. -/
def save (s : VSState) (d : Disk) (ok : ℕ → Bool) : Disk × Option String :=
  match s.index with
  | some rows =>
    if ok 0 then saveDocsStep s { d with indexFile := some rows } ok
    else (d, some "IOError")
  | none => saveDocsStep s d ok

/-- `TargetVectorStore.load`: replaces `self.index` if `index.faiss` exists,
then opens `documents.pkl` (raising `FileNotFoundError` if absent, with the
index already replaced), then loads `embeddings.npy` if it exists. -/
def load (d : Disk) (s : VSState) : VSState × Option String :=
  let s1 := match d.indexFile with
    | some rows => { s with index := some rows }
    | none => s
  match d.documentsFile with
  | none => (s1, some "FileNotFoundError")
  | some docs =>
    let s2 := { s1 with documents := docs }
    match d.embeddingsFile with
    | some e => ({ s2 with embeddings := e }, none)
    | none => (s2, none)

/-- A document as returned by the corpus loader (`PubMedLoader.load`):
`page_content` plus the `uid` metadata entry (absent when the metadata has no
`uid` key). -/
structure PDoc where
  page_content : String
  uid : Option String
deriving DecidableEq, Repr

/-- The corpus-fetch loop of `TargetDiscoveryRAG.build_knowledge_base`: for
each disease, `loader.load()` is tried; on success the first 2 documents are
kept (`disease_docs[:2]`); on an exception the loop BREAKS, abandoning every
remaining topic and keeping only what was collected so far. -/
def collectDocs (loader : String → Except String (List PDoc)) :
    List String → List PDoc
  | [] => []
  | t :: rest =>
    match loader t with
    | .ok ds => ds.take 2 ++ collectDocs loader rest
    | .error _ => []

/-- Modelled from the spec: the partial-corpus policy of section 4.5, which the
repository does not implement — on a per-topic loader failure the build is to
log and CONTINUE with the remaining topics, keeping every successfully loaded
document. Differs from `collectDocs` only in the failure branch. -/
def collectDocsSpec (loader : String → Except String (List PDoc)) :
    List String → List PDoc
  | [] => []
  | t :: rest =>
    (match loader t with
     | .ok ds => ds.take 2
     | .error _ => []) ++ collectDocsSpec loader rest

/-- The embedding-model identifier hard-coded in `TargetDiscoveryRAG.__init__`. -/
def currentModelId : String := "sentence-transformers/all-MiniLM-L6-v2"

/-- A persisted knowledge-base bundle found at the cache path. The documents
are what `chroma.sqlite3` holds; `builtTopics` and `builtModel` record which
request produced the bundle. Modelled from the spec: the spec posits a manifest
carrying the corpus topics and the embedding-model identifier, but the on-disk
bundle written by the code stores no such manifest, so these two fields are
provenance the running code can never inspect. -/
structure CachedKB where
  docs : List PDoc
  builtTopics : List String
  builtModel : String
deriving DecidableEq, Repr

/-- Observable outcome of `TargetDiscoveryRAG.build_knowledge_base`: the
documents the knowledge base ends up holding, whether the corpus loader was
invoked at all, whether the build ran to completion (collection populated and
persisted — the `ready` state), and the exception it raised if it aborted. -/
structure BuildResult where
  kbDocs : List PDoc
  usedLoader : Bool
  ready : Bool
  error : Option String
deriving DecidableEq, Repr

/-- `TargetDiscoveryRAG.build_knowledge_base`: if the cache file
(`chroma_db/chroma.sqlite3`) exists, load it and return, never touching the
corpus loader and never comparing the bundle against the requested topics or
model; otherwise fetch the corpus for the first 2 diseases (`diseases[:2]`)
and build the vector store from whatever `collectDocs` returned. When the
collected corpus is EMPTY the build aborts: `self.vectorstore._collection.add`
is called with an empty id list, which chromadb rejects with `ValueError`
(its id validation requires a non-empty list), so the exception propagates
before `persist` and the knowledge base never becomes ready (the already
assigned `self.vectorstore` holds an empty, unpersisted collection). -/
def build_knowledge_base (cache : Option CachedKB)
    (loader : String → Except String (List PDoc)) (diseases : List String) :
    BuildResult :=
  match cache with
  | some c => ⟨c.docs, false, true, none⟩
  | none =>
    let docs := collectDocs loader (diseases.take 2)
    if docs.isEmpty then ⟨docs, true, false, some "ValueError"⟩
    else ⟨docs, true, true, none⟩

/-- Modelled from the spec: the cache-validity condition of section 4.5 — load
the persisted bundle only when its manifest matches both the requested topic
set and the current embedding-model identifier. -/
def specCacheHit (cache : Option CachedKB) (diseases : List String)
    (modelId : String) : Bool :=
  match cache with
  | some c => c.builtTopics == diseases && c.builtModel == modelId
  | none => false

/-- Python `str.lower()` on the embedded character set. -/
def lowerStr (s : String) : String := String.map Char.toLower s

/-- Whether the first list is a leading segment of the second. -/
def isPrefixL : List Char → List Char → Bool
  | [], _ => true
  | _ :: _, [] => false
  | a :: as, b :: bs => a == b && isPrefixL as bs

/-- Whether the needle occurs contiguously inside the haystack. -/
def isSubstrL (needle : List Char) : List Char → Bool
  | [] => isPrefixL needle []
  | c :: rest => isPrefixL needle (c :: rest) || isSubstrL needle rest

/-- Python `kw in content` substring test on strings. -/
def containsKw (content kw : String) : Bool := isSubstrL kw.data content.data

/-- The target-extraction if/elif chain of `TargetDiscoveryRAG.discover_targets`,
applied to the lowercased document text. -/
def extractTarget (content : String) : String :=
  if containsKw content "pd-1" || containsKw content "pembrolizumab"
      || containsKw content "nivolumab" then "PD-1"
  else if containsKw content "egfr" || containsKw content "osimertinib"
      || containsKw content "gefitinib" then "EGFR"
  else if containsKw content "her2" || containsKw content "trastuzumab" then "HER2"
  else if containsKw content "kras" || containsKw content "sotorasib" then "KRAS"
  else "N/A"

/-- The same taxonomy as an ordered configuration table
(entity label, matching keywords), as the spec presents it. -/
def taxonomy : List (String × List String) :=
  [("PD-1", ["pd-1", "pembrolizumab", "nivolumab"]),
   ("EGFR", ["egfr", "osimertinib", "gefitinib"]),
   ("HER2", ["her2", "trastuzumab"]),
   ("KRAS", ["kras", "sotorasib"])]

/-- Modelled from the spec: first-match-wins lookup over an ordered keyword
taxonomy, `"N/A"` when no group matches. -/
def firstMatch (content : String) : List (String × List String) → String
  | [] => "N/A"
  | (label, kws) :: rest =>
    if kws.any (fun kw => containsKw content kw) then label
    else firstMatch content rest

/-- One entry of the `targets` list produced by `discover_targets`. -/
structure TargetEntry where
  target : String
  evidence : String
  source : String
deriving DecidableEq, Repr

/-- The per-document mapping of `TargetDiscoveryRAG.discover_targets`: target
label from the if/elif chain over the lowercased text, evidence snippet
`doc.page_content[:250] + "..."`, source `doc.metadata.get("uid", "PubMed")`. -/
def mkEntry (d : PDoc) : TargetEntry :=
  { target := extractTarget (lowerStr d.page_content)
    evidence := d.page_content.take 250 ++ "..."
    source := d.uid.getD "PubMed" }

/-- The output loop of `TargetDiscoveryRAG.discover_targets` over the top-k
documents returned by the similarity search, in ranking order. -/
def discover_targets (results : List PDoc) : List TargetEntry :=
  results.map mkEntry

/-- A default entry used with positional `getD` access in theorem statements. -/
def defaultEntry : TargetEntry := ⟨"", "", ""⟩

/-- A default corpus document used with positional `getD` access. -/
def defaultPDoc : PDoc := ⟨"", none⟩

/-- A default document used with positional `getD` access in theorem statements. -/
def defaultDoc : Doc := ⟨"", ""⟩

/-- A constant embedding function mapping every text to the vector `[1]`. -/
def enc0 : String → List ℚ := fun _ => [1]

/-- An embedding function mapping every text to the vector `[1, 0]`. -/
def enc10 : String → List ℚ := fun _ => [1, 0]

/-- Concrete document fixtures. -/
def dA : Doc := ⟨"A", "a"⟩

/-- Second concrete document fixture. -/
def dB : Doc := ⟨"B", "b"⟩

/-- A non-empty aligned store: one document, a one-row index, one embedding. -/
def sNE : VSState := ⟨some [[1]], [dA], [[1]]⟩

/-- A two-document aligned store with orthogonal unit rows. -/
def store2 : VSState := ⟨some [[1, 0], [0, 1]], [dA, dB], [[1, 0], [0, 1]]⟩

/-- C1 counterexample: a second successful `add_documents` call breaks row
alignment — the document store then holds 2 records while the index holds a
single row, because `add_documents` rebuilds the index from the new batch
only while `self.documents` keeps accumulating. -/
theorem add_documents_second_call_misaligns :
    ((add_documents enc0 initState [dA]).bind
        (fun s => add_documents enc0 s [dB])).map
      (fun s => (s.documents.length, rowCount s)) = .ok (2, 1) ∧ (2 : ℕ) ≠ 1 := by
  constructor
  · rfl
  · decide

/-- C1 (amended): after a SINGLE successful `add_documents` call on a fresh
store, the Document Store length equals the index row count and row `i` of the
index is the embedding of document `i`; the invariant is not preserved by a
second call. -/
theorem add_documents_single_build_aligned (encode : String → List ℚ)
    (docs : List Doc) (h : docs ≠ []) :
    ∃ s, add_documents encode initState docs = .ok s ∧
      s.documents = docs ∧
      rowCount s = s.documents.length ∧
      s.index = some (s.documents.map (fun d => encode (docText d))) := by
  have hne : docs.isEmpty = false := by
    cases docs with
    | nil => exact absurd rfl h
    | cons a l => rfl
  refine ⟨{ index := some ((docs.map docText).map encode)
            documents := docs
            embeddings := (docs.map docText).map encode }, ?_, rfl, ?_, ?_⟩
  · simp [add_documents, hne, initState]
  · simp [rowCount]
  · simp [List.map_map, Function.comp]

/-- Witness for the amended C1 theorem at a concrete input. -/
theorem add_documents_single_build_aligned_witness :
    ([dA] : List Doc) ≠ [] ∧
    (∃ s, add_documents enc0 initState [dA] = .ok s ∧
      s.documents = [dA] ∧
      rowCount s = s.documents.length ∧
      s.index = some (s.documents.map (fun d => enc0 (docText d)))) :=
  ⟨by decide, add_documents_single_build_aligned enc0 [dA] (by decide)⟩

/-- C7 counterexample: searching a fresh store (no index, no documents) returns
the ordinary value `[]` — it does not fail, and no `EmptyIndexError` exists in
the code. -/
theorem search_empty_store_returns_ok_nil :
    search enc0 initState "PD-1" 10 = .ok [] ∧
    (Except.ok ([] : List (Doc × ℚ)) : Except String (List (Doc × ℚ))) ≠
      .error "EmptyIndexError" := by
  constructor
  · rfl
  · simp

/-- C7 (amended): whenever the index is absent or the document list is empty,
`search` returns the empty list as a normal value instead of raising. -/
theorem search_empty_returns_nil (encode : String → List ℚ) (s : VSState)
    (q : String) (k : ℕ) (h : s.index = none ∨ s.documents = []) :
    search encode s q k = .ok [] := by
  rcases h with h | h
  · simp [search, h]
  · cases hidx : s.index with
    | none => simp [search, hidx]
    | some rows => simp [search, hidx, h]

/-- Witness for the amended C7 theorem at a concrete input. -/
theorem search_empty_returns_nil_witness :
    (initState.index = none ∨ initState.documents = []) ∧
    search enc0 initState "q" 3 = .ok [] :=
  ⟨Or.inl rfl, search_empty_returns_nil enc0 initState "q" 3 (Or.inl rfl)⟩

/-- C10: when the index artifact exists but the documents artifact is absent,
`load` first replaces the in-memory index and only then fails, leaving the
store with the newly loaded index paired with the previously held documents
and embeddings. -/
theorem load_partial_update_on_missing_documents (d : Disk) (s : VSState)
    (rows : List (List ℚ)) (hidx : d.indexFile = some rows)
    (hdocs : d.documentsFile = none) :
    load d s = ({ s with index := some rows }, some "FileNotFoundError") := by
  simp [load, hidx, hdocs]

/-- A bundle directory holding only the index artifact. -/
def diskIdxOnly : Disk := ⟨some [[1]], none, none⟩

/-- A store holding stale in-memory data before a `load` call. -/
def staleState : VSState := ⟨some [[2]], [dB], [[2]]⟩

/-- Witness for the C10 theorem at a concrete input: the stale documents
survive while the index is replaced. -/
theorem load_partial_update_witness :
    diskIdxOnly.indexFile = some [[1]] ∧ diskIdxOnly.documentsFile = none ∧
    load diskIdxOnly staleState =
      ({ staleState with index := some [[1]] }, some "FileNotFoundError") :=
  ⟨rfl, rfl, load_partial_update_on_missing_documents diskIdxOnly staleState [[1]] rfl rfl⟩

/-- A corpus document fixture mentioning EGFR. -/
def pd1 : PDoc :=
  ⟨"EGFR mutations in lung adenocarcinoma respond to osimertinib", some "35678901"⟩

/-- A corpus loader that fails for the topic `"lung cancer"` and returns one
document for every other topic. -/
def loaderC : String → Except String (List PDoc) :=
  fun t => if t = "lung cancer" then .error "PubMed timeout" else .ok [pd1]

/-- C4 counterexample: with topics `["lung cancer", "breast cancer"]` where the
first loader call fails and the second would return one document, the loop
breaks with ZERO documents collected and the build then ABORTS with
`ValueError` from the empty collection add — it neither continues with the
remaining topics nor reaches ready with the successful topics documents
demanded by the partial-corpus policy. -/
theorem build_abandons_topics_after_failure :
    build_knowledge_base none loaderC ["lung cancer", "breast cancer"] =
      ⟨[], true, false, some "ValueError"⟩ ∧
    (build_knowledge_base none loaderC ["lung cancer", "breast cancer"]).ready
      = false ∧
    collectDocsSpec loaderC ["lung cancer", "breast cancer"] = [pd1] ∧
    ([] : List PDoc) ≠ [pd1] := by
  refine ⟨?_, ?_, ?_, ?_⟩ <;> decide

/-- C4 (amended): on a per-topic loader failure the build stops fetching (the
loop breaks) instead of continuing with the remaining topics. It then completes
ready exactly when the documents collected before the failure — those of the
longest prefix of the first two requested topics on which the loader succeeds —
are non-empty; with zero documents collected it aborts with `ValueError` from
the empty collection add and the knowledge base does not become ready.
Successful topics after a failing one contribute nothing either way. -/
theorem build_uses_longest_successful_prefix
    (loader : String → Except String (List PDoc)) (diseases : List String) :
    build_knowledge_base none loader diseases =
      if (collectDocsSpec loader
            ((diseases.take 2).takeWhile (fun t => (loader t).isOk))).isEmpty
      then ⟨collectDocsSpec loader
              ((diseases.take 2).takeWhile (fun t => (loader t).isOk)),
            true, false, some "ValueError"⟩
      else ⟨collectDocsSpec loader
              ((diseases.take 2).takeWhile (fun t => (loader t).isOk)),
            true, true, none⟩ := by
  have key : ∀ ts : List String,
      collectDocs loader ts =
        collectDocsSpec loader (ts.takeWhile (fun t => (loader t).isOk)) := by
    intro ts
    induction ts with
    | nil => rfl
    | cons t rest ih =>
      cases hl : loader t with
      | ok ds =>
        simp [collectDocs, collectDocsSpec, List.takeWhile_cons, hl, Except.isOk, ih]
      | error e =>
        simp [collectDocs, collectDocsSpec, List.takeWhile_cons, hl, Except.isOk]
  simp only [build_knowledge_base, key]

/-- A persisted bundle whose (spec-posited) manifest records topics and a model
identifier that match no current request. -/
def staleCache : CachedKB := ⟨[pd1], ["melanoma"], "some-other-model"⟩

/-- C5 counterexample: a persisted bundle built for topic `["melanoma"]` under
a different model identifier is loaded verbatim for the request
`["breast cancer"]` — the corpus loader is skipped although the spec condition
(manifest matches topics and model) is false. -/
theorem cache_loaded_despite_manifest_mismatch :
    (build_knowledge_base (some staleCache) loaderC ["breast cancer"]).usedLoader
      = false ∧
    specCacheHit (some staleCache) ["breast cancer"] currentModelId = false := by
  constructor
  · rfl
  · decide

/-- C5 (amended): the code loads the persisted bundle exactly when the cache
file exists, never comparing the requested topic set or the embedding-model
identifier against the bundle. -/
theorem cache_hit_iff_cache_file_present (cache : Option CachedKB)
    (loader : String → Except String (List PDoc)) (diseases : List String) :
    ((build_knowledge_base cache loader diseases).usedLoader = false) ↔
      cache.isSome := by
  cases cache with
  | some c => simp [build_knowledge_base]
  | none =>
    simp only [build_knowledge_base]
    split <;> simp

/-- A write oracle under which every write call succeeds. -/
def allOk : ℕ → Bool := fun _ => true

/-- C6: for a non-empty store (index present, documents and embeddings
non-empty) a fully successful `save` followed by `load` reproduces the store
exactly — index rows in row order, document records and embeddings — from any
prior in-memory state; the bundle holds no manifest, so the manifest clause is
vacuous. -/
theorem save_load_roundtrip (s : VSState) (d : Disk) (s0 : VSState)
    (rows : List (List ℚ)) (hidx : s.index = some rows)
    (hdocs : s.documents ≠ []) (hemb : s.embeddings ≠ []) :
    (save s d allOk).2 = none ∧
    load (save s d allOk).1 s0 = (s, none) := by
  have hlen : 0 < s.embeddings.length := List.length_pos.mpr hemb
  obtain ⟨idx, docs, emb⟩ := s
  simp only [VSState.mk.injEq] at hidx ⊢
  simp only at hlen
  subst hidx
  constructor
  · simp [save, saveDocsStep, allOk, hlen]
  · simp [save, saveDocsStep, load, allOk, hlen]

/-- Witness for the C6 theorem at a concrete input. -/
theorem save_load_roundtrip_witness :
    sNE.index = some [[1]] ∧ sNE.documents ≠ [] ∧ sNE.embeddings ≠ [] ∧
    ((save sNE emptyDisk allOk).2 = none ∧
      load (save sNE emptyDisk allOk).1 initState = (sNE, none)) :=
  ⟨rfl, by decide, by decide,
    save_load_roundtrip sNE emptyDisk initState [[1]] rfl (by decide) (by decide)⟩

/-- A write oracle under which exactly the documents write (write 1) fails. -/
def okFailDocs : ℕ → Bool := fun n => n != 1

/-- C8 counterexample: a `save` of a non-empty store whose documents write
fails leaves the freshly written index artifact on disk with no documents
artifact — a partial bundle, neither all three artifacts nor none. -/
theorem save_interrupted_leaves_partial_bundle :
    save sNE emptyDisk okFailDocs = (⟨some [[1]], none, none⟩, some "IOError") ∧
    (⟨some [[1]], none, none⟩ : Disk) ≠ emptyDisk ∧
    (⟨some [[1]], none, none⟩ : Disk).documentsFile = none := by
  refine ⟨?_, ?_, rfl⟩
  · rfl
  · decide

/-- C8 (amended): `save` writes the artifacts sequentially in place with no
temporary path or atomic rename: when the store has an index, a successful
index write followed by a failing documents write surfaces `IOError` and
leaves the index artifact (over)written while the documents and embeddings
artifacts keep their prior disk contents. -/
theorem save_docs_write_failure_keeps_index_artifact (s : VSState) (d : Disk)
    (ok : ℕ → Bool) (rows : List (List ℚ)) (hidx : s.index = some rows)
    (h0 : ok 0 = true) (h1 : ok 1 = false) :
    save s d ok = ({ d with indexFile := some rows }, some "IOError") := by
  simp [save, saveDocsStep, hidx, h0, h1]

/-- Witness for the amended C8 theorem at a concrete input. -/
theorem save_docs_write_failure_witness :
    sNE.index = some [[1]] ∧ okFailDocs 0 = true ∧ okFailDocs 1 = false ∧
    save sNE emptyDisk okFailDocs =
      ({ emptyDisk with indexFile := some [[1]] }, some "IOError") :=
  ⟨rfl, rfl, rfl,
    save_docs_write_failure_keeps_index_artifact sNE emptyDisk okFailDocs [[1]] rfl rfl rfl⟩

/-- C2: searching a 1-row index with `top_k = 2` does NOT return the single
stored pair: FAISS pads the missing neighbour with label `-1` and score
`-FLT_MAX`, the guard `idx < len(self.documents)` lets `-1` through, and
Python negative indexing resolves it to the LAST document — so the result has
length 2 (not `min(n, k) = 1`) and its second entry is a phantom duplicate of
document 0 with a sentinel score. -/
theorem search_k_beyond_rows_returns_phantom :
    search enc0 sNE "PD-1 query" 2 = .ok [(dA, 1), (dA, negFltMax)] ∧
    (2 : ℕ) ≠ min 2 1 := by
  constructor
  · norm_num [search, sNE, enc0, faissSearch, ranked, dot, pyCollect, pyGet,
      Except.map]
  · decide

/-- The if/elif chain of the implementation computes exactly the
first-match-wins lookup over the ordered keyword taxonomy table. -/
theorem extractTarget_eq_firstMatch (c : String) :
    extractTarget c = firstMatch c taxonomy := by
  simp [extractTarget, firstMatch, taxonomy, List.any_cons, List.any_nil,
    Bool.or_false, Bool.or_assoc]

/-- C9: every retrieved document yields exactly one output entry, in retrieval
order: its target label is the first taxonomy group with a keyword contained in
the lowercased document text (`"N/A"` if none), its evidence is the first 250
characters of the text plus an ellipsis, and its source is the `uid` metadata
entry or `"PubMed"`. -/
theorem discover_targets_entry_mapping (results : List PDoc) (i : ℕ)
    (h : i < results.length) :
    (discover_targets results).length = results.length ∧
    (discover_targets results).getD i defaultEntry =
      { target := firstMatch (lowerStr ((results.getD i defaultPDoc).page_content))
          taxonomy
        evidence := ((results.getD i defaultPDoc).page_content.take 250) ++ "..."
        source := (results.getD i defaultPDoc).uid.getD "PubMed" } := by
  constructor
  · simp [discover_targets]
  · have h1 : results.get? i = some (results.get ⟨i, h⟩) := List.get?_eq_get h
    have h2 : results.getD i defaultPDoc = results.get ⟨i, h⟩ := by
      rw [List.getD_eq_get?, h1]
      rfl
    have h3 : (discover_targets results).getD i defaultEntry =
        mkEntry (results.get ⟨i, h⟩) := by
      rw [discover_targets, List.getD_eq_get?, List.get?_map, h1]
      rfl
    rw [h3, h2]
    simp [mkEntry, extractTarget_eq_firstMatch]

/-- Witness for the C9 theorem at a concrete input. -/
theorem discover_targets_entry_mapping_witness :
    0 < [pd1].length ∧
    ((discover_targets [pd1]).length = [pd1].length ∧
     (discover_targets [pd1]).getD 0 defaultEntry =
       { target := firstMatch (lowerStr (([pd1].getD 0 defaultPDoc).page_content))
           taxonomy
         evidence := (([pd1].getD 0 defaultPDoc).page_content.take 250) ++ "..."
         source := ([pd1].getD 0 defaultPDoc).uid.getD "PubMed" }) :=
  ⟨by decide, discover_targets_entry_mapping [pd1] 0 (by decide)⟩

/-- Helper: every row id appearing in the ranked list indexes a real row. -/
theorem ranked_ids_lt (rows : List (List ℚ)) (q : List ℚ) :
    ∀ p ∈ ranked rows q, p.1 < rows.length := by
  intro p hp
  simp only [ranked] at hp
  have hperm := List.perm_insertionSort searchRel ((rows.map (dot q)).enum)
  have hmem : p ∈ (rows.map (dot q)).enum := hperm.mem_iff.mp hp
  have hget := List.mem_enum_iff_get?.mp hmem
  rcases List.get?_eq_some.mp hget with ⟨hlt, _⟩
  simpa using hlt

/-- Helper: `pyCollect` over non-negative in-range labels never drops or
duplicates an entry — it is plain positional lookup. -/
theorem pyCollect_in_range (docs : List Doc) (l : List (Int × ℚ)) :
    (∀ p ∈ l, 0 ≤ p.1 ∧ p.1 < (docs.length : Int)) →
    pyCollect docs l =
      .ok (l.map (fun p => (docs.getD p.1.toNat defaultDoc, p.2))) := by
  induction l with
  | nil => intro _; rfl
  | cons p rest ih =>
    intro h
    obtain ⟨idx, sc⟩ := p
    obtain ⟨h0, hlt⟩ := h (idx, sc) (List.mem_cons_self _ _)
    have hrest := ih (fun p hp => h p (List.mem_cons_of_mem _ hp))
    have htn : idx.toNat < docs.length := by omega
    have hgd : docs.getD idx.toNat defaultDoc = docs.get ⟨idx.toNat, htn⟩ := by
      rw [List.getD_eq_get?, List.get?_eq_get htn]
      rfl
    have hget : pyGet docs idx = some (docs.getD idx.toNat defaultDoc) := by
      simp only [pyGet, if_pos h0]
      rw [List.get?_eq_get htn, hgd]
    simp only [pyCollect, if_pos hlt, hget, hrest, Except.map, List.map_cons]

/-- C3 (amended): for every aligned non-empty store and every `k` with
`0 < k ≤` row count, `search` returns exactly the `k` best `(document, score)`
pairs: the full `(row_id, score)` ranking is a `searchRel`-sorted permutation
of all row scores (scores descending, exact ties resolved to the lowest row
id), the result is its `k`-prefix mapped through the document store in that
order, and the returned scores are non-increasing by position. The model is a
pure function of store and query, so repeated calls agree. For `k` above the
row count the phantom-padding behaviour of the counterexample takes over. -/
theorem search_returns_sorted_topk (encode : String → List ℚ) (s : VSState)
    (q : String) (k : ℕ) (rows : List (List ℚ)) (hidx : s.index = some rows)
    (hlen : s.documents.length = rows.length) (hne : rows ≠ [])
    (hk1 : 0 < k) (hkn : k ≤ rows.length) :
    search encode s q k =
      .ok (((ranked rows (encode q)).take k).map
        (fun p => (s.documents.getD p.1 defaultDoc, p.2))) ∧
    ((ranked rows (encode q)).take k).length = k ∧
    List.Sorted searchRel (ranked rows (encode q)) ∧
    (ranked rows (encode q)).Perm ((rows.map (dot (encode q))).enum) ∧
    List.Pairwise (fun a b : ℚ => b ≤ a)
      (((ranked rows (encode q)).take k).map Prod.snd) := by
  have hsorted : List.Sorted searchRel (ranked rows (encode q)) := by
    simp only [ranked]
    exact List.sorted_insertionSort searchRel _
  have hperm : (ranked rows (encode q)).Perm ((rows.map (dot (encode q))).enum) := by
    simp only [ranked]
    exact List.perm_insertionSort searchRel _
  have hrlen : (ranked rows (encode q)).length = rows.length := by
    rw [hperm.length_eq, List.enum_length, List.length_map]
  have htake : ((ranked rows (encode q)).take k).length = k := by
    rw [List.length_take, hrlen]
    omega
  have hpad : k - rows.length = 0 := Nat.sub_eq_zero_of_le hkn
  have hfs : faissSearch rows (encode q) k =
      ((ranked rows (encode q)).take k).map (fun p => ((p.1 : Int), p.2)) := by
    rw [faissSearch, hpad, List.replicate_zero, List.append_nil]
  have hdocs0 : ¬ s.documents.length = 0 := by
    rw [hlen]
    intro h0
    exact hne (List.length_eq_zero.mp h0)
  have hids : ∀ p ∈ (ranked rows (encode q)).take k, p.1 < rows.length :=
    fun p hp => ranked_ids_lt rows (encode q) p (List.mem_of_mem_take hp)
  have hcol : pyCollect s.documents
        (((ranked rows (encode q)).take k).map (fun p => ((p.1 : Int), p.2))) =
      .ok ((((ranked rows (encode q)).take k).map
          (fun p => ((p.1 : Int), p.2))).map
        (fun p => (s.documents.getD p.1.toNat defaultDoc, p.2))) := by
    apply pyCollect_in_range
    intro p hp
    rcases List.mem_map.mp hp with ⟨p0, hp0, rfl⟩
    dsimp only
    refine ⟨by exact_mod_cast Nat.zero_le p0.1, ?_⟩
    have hp1 := hids p0 hp0
    rw [hlen]
    exact_mod_cast hp1
  have hsearch : search encode s q k =
      pyCollect s.documents (faissSearch rows (encode q) k) := by
    simp only [search, hidx]
    simp [hdocs0]
  refine ⟨?_, htake, hsorted, hperm, ?_⟩
  · have hfun : ((fun p : Int × ℚ => (s.documents.getD p.1.toNat defaultDoc, p.2)) ∘
        (fun p : ℕ × ℚ => ((p.1 : Int), p.2))) =
        (fun p : ℕ × ℚ => (s.documents.getD p.1 defaultDoc, p.2)) := by
      funext p
      simp [Function.comp]
    rw [hsearch, hfs, hcol, List.map_map, hfun]
  · have hp1 : List.Pairwise searchRel ((ranked rows (encode q)).take k) :=
      List.Pairwise.sublist (List.take_sublist _ _) hsorted
    exact List.Pairwise.map Prod.snd
      (fun a b hab => by
        rcases hab with h | ⟨h, _⟩
        · exact le_of_lt h
        · exact le_of_eq h.symm) hp1

/-- C3 counterexample: with 2 stored rows and `k = 3`, the result has a third
entry whose score `-FLT_MAX` is not the inner product of the query with any
stored row (and whose document is a phantom duplicate of the last row), so the
call does not return "the k highest inner-product scores". -/
theorem search_k_beyond_rows_not_topk :
    search enc10 store2 "q" 3 = .ok [(dA, 1), (dB, 0), (dB, negFltMax)] ∧
    (∀ r ∈ [[(1 : ℚ), 0], [0, 1]], dot [1, 0] r ≠ negFltMax) := by
  constructor
  · norm_num [search, store2, enc10, faissSearch, ranked, dot, pyCollect, pyGet,
      Except.map, List.insertionSort, List.orderedInsert, searchRel]
  · intro r hr
    fin_cases hr <;> norm_num [dot, negFltMax]

/-- Witness for the amended C3 theorem at a concrete input. -/
theorem search_returns_sorted_topk_witness :
    store2.index = some [[1, 0], [0, 1]] ∧
    store2.documents.length = ([[(1 : ℚ), 0], [0, 1]]).length ∧
    ([[(1 : ℚ), 0], [0, 1]]) ≠ [] ∧ 0 < 2 ∧ 2 ≤ ([[(1 : ℚ), 0], [0, 1]]).length ∧
    (search enc10 store2 "q" 2 =
      .ok (((ranked [[1, 0], [0, 1]] (enc10 "q")).take 2).map
        (fun p => (store2.documents.getD p.1 defaultDoc, p.2))) ∧
    ((ranked [[1, 0], [0, 1]] (enc10 "q")).take 2).length = 2 ∧
    List.Sorted searchRel (ranked [[1, 0], [0, 1]] (enc10 "q")) ∧
    (ranked [[1, 0], [0, 1]] (enc10 "q")).Perm
      ((([[(1 : ℚ), 0], [0, 1]]).map (dot (enc10 "q"))).enum) ∧
    List.Pairwise (fun a b : ℚ => b ≤ a)
      (((ranked [[1, 0], [0, 1]] (enc10 "q")).take 2).map Prod.snd)) :=
  ⟨rfl, rfl, by decide, by decide, by decide,
    search_returns_sorted_topk enc10 store2 "q" 2 [[1, 0], [0, 1]] rfl rfl
      (by decide) (by decide) (by decide)⟩
